import Mathlib

/-!
# Verification of the Healthcare GenAI RAG pipeline

Shallow embedding of the Rag-Chat-Bot repository: the category-scoped
retrieval pipeline, safety filter and document store described by the
project documentation, and the React frontend logic (`ContentForm.jsx`,
`DocumentLookup.jsx`, `api.js`) translated from the source.

The backend Python modules (`rag.py`, `safety.py`, `prompt_engine.py`,
`main.py`) are not part of the checked-in sources; where a claim depends on
them, the corresponding definition is modelled from the specification and
marked as such in its doc comment.
-/

namespace RagChatBot

/-- Chunk category, the fixed enum from the data model:
one of disease, template, disclaimer, guideline, wellness. -/
inductive Category where
  | disease
  | template
  | disclaimer
  | guideline
  | wellness
deriving DecidableEq, Repr

/-- The four document types offered by the system. -/
inductive DocumentType where
  | disease_overview
  | medical_certificate
  | health_suggestions
  | educational_notes
deriving DecidableEq, Repr

/-- A knowledge-base chunk: tenant key, category, optional disease
identifier, raw text and a fixed-dimension embedding vector.
Modelled from the spec: the backend chunk records built by the Indexer
(`rag.py`) are not under `src/`. -/
structure Chunk where
  tenant : String
  category : Category
  diseaseId : Option String
  text : String
  embedding : List Int
deriving DecidableEq, Repr

/-- A generation request: document type, free-text topic, optional disease
identifier, optional patient identifier, tenant key. -/
structure GenerationRequest where
  document_type : DocumentType
  topic : String
  disease_id : Option String
  patient_id : Option String
  tenant : String
deriving DecidableEq, Repr

/-- The error taxonomy of the pipeline (spec section 7). -/
inductive GenError where
  | InvalidScopeError
  | InsufficientDataError
  | GenerationUnavailableError
  | ComplianceViolationError
  | NotFoundError
deriving DecidableEq, Repr

/-- Inner product of two embedding vectors (scores of the FAISS
IndexFlatIP search). -/
def innerProduct : List Int → List Int → Int
  | a :: as, b :: bs => a * b + innerProduct as bs
  | _, _ => 0

/-- Modelled from the spec: the deterministic embedding function
(all-MiniLM-L6-v2 in the backend, not under `src/`); any fixed function of
the text suffices for the retrieval-ordering and filtering properties. -/
def embed (s : String) : List Int :=
  s.data.map (fun c => (c.toNat : Int))

/-- The fixed category table of the Scoped Retriever (spec section 4.2 /
README "Category-Based Scoped Retrieval"): document type → allowed
categories. -/
def allowedCategories : DocumentType → List Category
  | DocumentType.disease_overview => [Category.disease]
  | DocumentType.medical_certificate => [Category.template, Category.disclaimer]
  | DocumentType.health_suggestions => [Category.wellness, Category.guideline]
  | DocumentType.educational_notes => [Category.guideline, Category.wellness]

/-- Candidate filter of the Scoped Retriever: the chunk's category must be
allowed for the document type, and for `disease_overview` the chunk's
disease identifier must equal the requested one.
Modelled from the spec: backend `rag.py` is not under `src/`. -/
def chunkAllowed (req : GenerationRequest) (c : Chunk) : Bool :=
  decide (c.category ∈ allowedCategories req.document_type) &&
    (if req.document_type = DocumentType.disease_overview then
      c.diseaseId == req.disease_id
    else true)

/-- Ranking relation over indexed candidates: higher inner-product score
first, ties broken by the original insertion index (stable order). -/
def rankRel (q : List Int) (a b : Nat × Chunk) : Prop :=
  innerProduct q a.2.embedding > innerProduct q b.2.embedding ∨
    (innerProduct q a.2.embedding = innerProduct q b.2.embedding ∧ a.1 ≤ b.1)

instance (q : List Int) : DecidableRel (rankRel q) := by
  intro a b
  unfold rankRel
  infer_instance

instance (q : List Int) : IsTotal (Nat × Chunk) (rankRel q) := by
  constructor
  intro a b
  unfold rankRel
  omega

instance (q : List Int) : IsTrans (Nat × Chunk) (rankRel q) := by
  constructor
  intro a b c hab hbc
  unfold rankRel at *
  omega

/-- Scoped retrieval on index-tagged chunks: restrict the candidate set to
the allowed categories/disease *before* ranking, rank by descending inner
product with stable tie-break, return the top-K.
Modelled from the spec: backend `rag.py` is not under `src/`. -/
def scopedRetrieveIndexed (K : Nat) (index : List Chunk)
    (req : GenerationRequest) : List (Nat × Chunk) :=
  let q := embed req.topic
  let candidates := (index.enum).filter (fun ic => chunkAllowed req ic.2)
  (List.insertionSort (rankRel q) candidates).take K

/-- The Retrieval Result: ranked (chunk, score) pairs, length at most K.
Modelled from the spec: backend `rag.py` is not under `src/`. -/
def scopedRetrieve (K : Nat) (index : List Chunk)
    (req : GenerationRequest) : List (Chunk × Int) :=
  (scopedRetrieveIndexed K index req).map
    (fun ic => (ic.2, innerProduct (embed req.topic) ic.2.embedding))

/-- The configured default top-K of the RAG configuration
(README: "TOP_K: 5 references (enforced at search level)"). -/
def TOP_K : Nat := 5

/-! ## Safety Filter

Modelled from the spec: backend `safety.py` is not under `src/`. The filter
is a pure function of (document type, text): a case-insensitive keyword scan
against curated phrase lists (no diagnosis, no medication/dosage, no
fitness determination), plus the medical-certificate obligations (DRAFT
marker, clinician-review disclaimer, unfilled patient/doctor placeholders).
-/

/-- Test whether `needle` is a prefix of `hay`. -/
def hasPrefixChars : List Char → List Char → Bool
  | [], _ => true
  | _ :: _, [] => false
  | a :: as, b :: bs => a == b && hasPrefixChars as bs

/-- Test whether `needle` occurs contiguously in `hay`. -/
def containsChars (needle : List Char) : List Char → Bool
  | [] => hasPrefixChars needle []
  | c :: cs => hasPrefixChars needle (c :: cs) || containsChars needle cs

/-- Lower-case an ASCII letter (the case folding used by the
case-insensitive scan). -/
def lowerChar (c : Char) : Char :=
  if 'A' ≤ c ∧ c ≤ 'Z' then Char.ofNat (c.toNat + 32) else c

/-- Case-insensitive substring test (the spec's "pattern/keyword-based scan
(case-insensitive)"). -/
def containsCI (needle hay : String) : Bool :=
  containsChars (needle.data.map lowerChar) (hay.data.map lowerChar)

/-- Modelled from the spec: curated phrase list for definitive diagnosis
statements (backend `safety.py` is not under `src/`). -/
def diagnosisPhrases : List String :=
  ["you are diagnosed with", "the diagnosis is", "confirmed diagnosis"]

/-- Modelled from the spec: curated phrase list for specific
medications/dosages (backend `safety.py` is not under `src/`). -/
def medicationPhrases : List String :=
  ["ibuprofen", "paracetamol", "amoxicillin", "aspirin", "mg per day", "take a dosage of"]

/-- Modelled from the spec: curated phrase list for fitness/unfitness
determinations (backend `safety.py` is not under `src/`). -/
def fitnessPhrases : List String :=
  ["fit to work", "unfit to work", "fit for duty", "unfit for duty"]

/-- A text violates a prohibited-content category when any of its curated
phrases occurs in the text (case-insensitively). -/
def violatesAny (phrases : List String) (t : String) : Bool :=
  phrases.any (fun p => containsCI p t)

/-- Medical-certificate obligations: an explicit DRAFT marker, a
clinician-review disclaimer, and unfilled patient/doctor placeholders.
Modelled from the spec (backend `safety.py` is not under `src/`). -/
def certificateOk (t : String) : Bool :=
  containsCI "draft" t && containsCI "requires clinician review" t &&
    containsCI "[patient name]" t && containsCI "[doctor name]" t

/-- The Safety Filter: a pure function of (document type, text).
A match of any prohibited phrase, or for `medical_certificate` a missing
obligation, rejects with `ComplianceViolationError`; otherwise the text is
passed through unchanged.
Modelled from the spec: backend `safety.py` is not under `src/`. -/
def safetyFilter (dt : DocumentType) (t : String) : Except GenError String :=
  if violatesAny diagnosisPhrases t || violatesAny medicationPhrases t ||
      violatesAny fitnessPhrases t then
    Except.error GenError.ComplianceViolationError
  else if dt = DocumentType.medical_certificate ∧ certificateOk t = false then
    Except.error GenError.ComplianceViolationError
  else
    Except.ok t

/-! ## Prompt Constructor and pipeline

Modelled from the spec: backend `prompt_engine.py` and `main.py` are not
under `src/`. On an empty Retrieval Result the pipeline short-circuits with
`InsufficientDataError` and never sends a content-generation prompt to the
Generation Client; otherwise the prompt is the document-type instruction
header, the retrieved chunk texts in ranked order (each attributed to its
category), the negative constraints, and the topic.
-/

/-- Display name of a chunk category, used for prompt attribution. -/
def categoryLabel : Category → String
  | Category.disease => "disease"
  | Category.template => "template"
  | Category.disclaimer => "disclaimer"
  | Category.guideline => "guideline"
  | Category.wellness => "wellness"

/-- Display name of a document type. -/
def documentTypeName : DocumentType → String
  | DocumentType.disease_overview => "disease overview"
  | DocumentType.medical_certificate => "medical certificate"
  | DocumentType.health_suggestions => "health suggestions"
  | DocumentType.educational_notes => "educational notes"

/-- Document-type-specific negative constraints attached to the prompt
(spec section 4.5). Modelled from the spec. -/
def negativeConstraints (dt : DocumentType) : String :=
  "Do not state a definitive diagnosis. Do not name a specific medication or dosage. Do not make a fitness determination.\n" ++
    (if dt = DocumentType.medical_certificate then
      "Mark the output as DRAFT, include the clinician-review disclaimer, and leave patient and doctor fields as unfilled placeholders.\n"
    else "")

/-- The chunks used in the constructed prompt: exactly the chunks of the
scoped Retrieval Result, in ranked order. -/
def promptChunks (K : Nat) (index : List Chunk) (req : GenerationRequest) :
    List Chunk :=
  (scopedRetrieve K index req).map Prod.fst

/-- The content-generation prompt built from a non-empty Retrieval Result:
instruction header, retrieved chunk texts in ranked order (each attributed
to its category), negative constraints and the user's topic.
Modelled from the spec: backend `prompt_engine.py` is not under `src/`. -/
def buildPrompt (req : GenerationRequest) (rr : List (Chunk × Int)) : String :=
  "Generate a " ++ documentTypeName req.document_type ++
    " strictly from the reference chunks below.\n" ++
    String.join (rr.map (fun p =>
      "[" ++ categoryLabel p.1.category ++ "] " ++ p.1.text ++ "\n")) ++
    negativeConstraints req.document_type ++
    "Topic: " ++ req.topic

/-- Scope validation preceding retrieval (spec sections 4.2 and 8): a
`disease_overview` request must carry a known disease identifier, and a
`medical_certificate` request must carry an existing patient identifier;
otherwise the request fails with `InvalidScopeError` before any retrieval.
Modelled from the spec: backend `main.py` is not under `src/`. -/
def scopeOk (knownDiseases : List String) (patientExists : String → Bool)
    (req : GenerationRequest) : Bool :=
  (if req.document_type = DocumentType.disease_overview then
    match req.disease_id with
    | some d => knownDiseases.contains d
    | none => false
  else true) &&
  (if req.document_type = DocumentType.medical_certificate then
    match req.patient_id with
    | some p => patientExists p
    | none => false
  else true)

/-- One generation request through the core pipeline: scope check, scoped
retrieval, short-circuit on an empty retrieval set, prompt construction,
Generation Client invocation, safety filtering. The second component of
the result is the list of content-generation prompts with which the
Generation Client was invoked (empty on every short-circuit path).
Modelled from the spec: backend `main.py` is not under `src/`. -/
def runGeneration (K : Nat) (knownDiseases : List String)
    (patientExists : String → Bool) (index : List Chunk)
    (req : GenerationRequest) (backend : String → String) :
    Except GenError String × List String :=
  if scopeOk knownDiseases patientExists req = true then
    let rr := scopedRetrieve K index req
    if rr.isEmpty then
      (Except.error GenError.InsufficientDataError, [])
    else
      let p := buildPrompt req rr
      match safetyFilter req.document_type (backend p) with
      | Except.ok text => (Except.ok text, [p])
      | Except.error e => (Except.error e, [p])
  else
    (Except.error GenError.InvalidScopeError, [])

/-! ## Document Store

Modelled from the spec: the backend MongoDB-backed store (`main.py`) is not
under `src/`. `create` assigns a fresh identifier (effectively unique;
modelled by a fresh counter drawn from the identifier space), stores the
full Generated Document, and returns the identifier exactly once. `get` is
an exact-match lookup on the identifier only and fails with
`NotFoundError` when the identifier is absent.
-/

/-- A Generated Document as persisted by the Document Store. -/
structure GeneratedDoc where
  document_type : DocumentType
  topic : String
  content : String
  created_at : Nat
  tenant : String
deriving DecidableEq, Repr

/-- The Document Store: a next fresh identifier and the keyed documents.
No index exists on any field but the identifier. -/
structure DocStore where
  nextId : Nat
  docs : List (Nat × GeneratedDoc)
deriving DecidableEq, Repr

/-- The empty Document Store. -/
def DocStore.empty : DocStore := ⟨0, []⟩

/-- The store's `create`: assign the fresh identifier, store the full
document, return the identifier exactly once. -/
def DocStore.create (s : DocStore) (d : GeneratedDoc) : DocStore × Nat :=
  (⟨s.nextId + 1, (s.nextId, d) :: s.docs⟩, s.nextId)

/-- The store's `get`: exact-match lookup on the identifier only;
`NotFoundError` when absent. -/
def DocStore.get (s : DocStore) (id : Nat) : Except GenError GeneratedDoc :=
  match s.docs.find? (fun kd => kd.1 == id) with
  | some kd => Except.ok kd.2
  | none => Except.error GenError.NotFoundError

/-- A sequence of `create` calls; returns the final store and the list of
identifiers issued, in order. -/
def DocStore.createMany (s : DocStore) : List GeneratedDoc → DocStore × List Nat
  | [] => (s, [])
  | d :: ds =>
    let r := s.create d
    let rest := r.1.createMany ds
    (rest.1, r.2 :: rest.2)

/-! ## Frontend: generation form and API payload

Translated from `src/frontend/src/components/ContentForm.jsx` (its
`DOCUMENT_TYPES` table and `handleSubmit`) and `src/frontend/api.js`
(`generateDocument`). The logic of `src/src/components/ContentForm.jsx` is
identical.
-/

/-- One entry of the `DOCUMENT_TYPES` configuration array of
`ContentForm.jsx`. -/
structure DocTypeConfig where
  type : String
  requiresPatientField : Bool
  requiresDiseaseField : Bool
deriving DecidableEq, Repr

/-- The `DOCUMENT_TYPES` array of `ContentForm.jsx` (lines 10-43). -/
def DOCUMENT_TYPES : List DocTypeConfig :=
  [⟨"medical_certificate", true, false⟩,
   ⟨"disease_overview", false, true⟩,
   ⟨"health_suggestions", false, false⟩,
   ⟨"educational_notes", false, false⟩]

/-- The lookup `DOCUMENT_TYPES.find(t => t.type === documentType)` of
`ContentForm.jsx`. -/
def selectedTypeConfig (documentType : String) : Option DocTypeConfig :=
  DOCUMENT_TYPES.find? (fun c => c.type == documentType)

/-- The flag `selectedType?.requires_patient || false` of `ContentForm.jsx`. -/
def formRequiresPatient (documentType : String) : Bool :=
  ((selectedTypeConfig documentType).map (fun c => c.requiresPatientField)).getD false

/-- The flag `selectedType?.requires_disease || false` of `ContentForm.jsx`. -/
def formRequiresDisease (documentType : String) : Bool :=
  ((selectedTypeConfig documentType).map (fun c => c.requiresDiseaseField)).getD false

/-- A whitespace character as removed by JavaScript `String.prototype.trim`
on the inputs this form handles. -/
def wsChar (c : Char) : Bool :=
  c == ' ' || c == '\t' || c == '\n' || c == '\r'

/-- Drop whitespace from both ends of a character list. -/
def trimChars (cs : List Char) : List Char :=
  ((cs.dropWhile wsChar).reverse.dropWhile wsChar).reverse

/-- The JavaScript `value.trim()` used by the form handlers. -/
def jsTrim (s : String) : String := String.mk (trimChars s.data)

/-- The form state read by `handleSubmit` in `ContentForm.jsx`. -/
structure FormState where
  documentType : String
  diseaseName : String
  topic : String
  patientId : String
deriving DecidableEq, Repr

/-- The request payload assembled by `generateDocument` in
`src/frontend/api.js` (lines 54-73): `document_type`, `topic` and
`hospital_id` always; `disease_name` and `patient_id` only when the passed
value is truthy (a non-null, non-empty string). -/
structure GeneratePayload where
  document_type : String
  topic : String
  hospital_id : String
  disease_name : Option String
  patient_id : Option String
deriving DecidableEq, Repr

/-- The function `generateDocument` of `src/frontend/api.js`: builds the payload,
including `disease_name` / `patient_id` only when truthy. -/
def generateDocumentPayload (document_type topic : String)
    (disease_name patient_id : Option String) : GeneratePayload :=
  { document_type := document_type
    topic := topic
    hospital_id := "demo_hospital"
    disease_name :=
      match disease_name with
      | some d => if d = "" then none else some d
      | none => none
    patient_id :=
      match patient_id with
      | some p => if p = "" then none else some p
      | none => none }

/-- Outcome of a form submission: a validation error shown to the user, or
a request payload sent to the backend. -/
inductive SubmitOutcome where
  | error (msg : String)
  | send (payload : GeneratePayload)
deriving DecidableEq, Repr

/-- The handler `handleSubmit` of `ContentForm.jsx` (lines 123-153): validation in
source order, then the `generateDocument` call with
`disease_name: requiresDisease ? diseaseName : null` and
`patient_id: requiresPatient ? patientId : null`. -/
def handleSubmit (st : FormState) : SubmitOutcome :=
  if st.documentType = "" then
    SubmitOutcome.error "Please select a document type"
  else if formRequiresDisease st.documentType = true ∧ st.diseaseName = "" then
    SubmitOutcome.error "Please select a disease for Disease Overview"
  else if jsTrim st.topic = "" then
    SubmitOutcome.error "Please enter a topic"
  else if formRequiresPatient st.documentType = true ∧ st.patientId = "" then
    SubmitOutcome.error "Medical Certificate requires a valid patient ID"
  else
    SubmitOutcome.send (generateDocumentPayload st.documentType (jsTrim st.topic)
      (if formRequiresDisease st.documentType then some st.diseaseName else none)
      (if formRequiresPatient st.documentType then some st.patientId else none))

/-! ## Frontend: document lookup

Translated from `src/frontend/src/components/DocumentLookup.jsx`
(`handleSubmit`, lines 14-48). The logic of
`src/src/components/DocumentLookup.jsx` is identical.
-/

/-- A hexadecimal digit, the character class of the UUID pattern with its
case-insensitive flag. -/
def isHexDigit (c : Char) : Bool :=
  ('0' ≤ c && c ≤ '9') || ('a' ≤ c && c ≤ 'f') || ('A' ≤ c && c ≤ 'F')

/-- Split a character list on the dash character: the groups a full regex
match against dash-separated groups would have to produce. -/
def splitDash : List Char → List (List Char)
  | [] => [[]]
  | c :: rest =>
    if c == '-' then [] :: splitDash rest
    else
      match splitDash rest with
      | g :: gs => (c :: g) :: gs
      | [] => [[c]]

/-- The whole group is made of exactly `n` hexadecimal digits. -/
def hexGroup (n : Nat) (g : List Char) : Bool :=
  g.length == n && g.all isHexDigit

/-- The UUID shape tested by
`/^[0-9a-f]{8}-[0-9a-f]{4}-[0-9a-f]{4}-[0-9a-f]{4}-[0-9a-f]{12}$/i` in
`DocumentLookup.jsx`: five dash-separated hexadecimal groups of lengths
8-4-4-4-12. -/
def uuidShaped (s : String) : Bool :=
  match splitDash s.data with
  | [a, b, c, d, e] =>
    hexGroup 8 a && hexGroup 4 b && hexGroup 4 c && hexGroup 4 d && hexGroup 12 e
  | _ => false

/-- Outcome of a lookup submission: an error message set in component
state, or a `getDocument` request for the given identifier. -/
inductive LookupOutcome where
  | error (msg : String)
  | call (id : String)
deriving DecidableEq, Repr

/-- The handler `handleSubmit` of `DocumentLookup.jsx` (lines 14-48): trim the input,
reject blank input, reject input that fails the UUID-shape test, otherwise
call `getDocument` with the trimmed identifier. -/
def lookupHandleSubmit (documentId : String) : LookupOutcome :=
  let trimmedId := jsTrim documentId
  if trimmedId = "" then
    LookupOutcome.error "Please enter a Document ID"
  else if uuidShaped trimmedId = false then
    LookupOutcome.error "Invalid Document ID format. Please check and try again."
  else
    LookupOutcome.call trimmedId

/-! ## Helper lemmas -/

/-- A document type requires the disease field exactly when it is
`disease_overview` (the `DOCUMENT_TYPES` table of `ContentForm.jsx`). -/
lemma formRequiresDisease_iff (dt : String) :
    formRequiresDisease dt = true ↔ dt = "disease_overview" := by
  unfold formRequiresDisease selectedTypeConfig DOCUMENT_TYPES
  by_cases h1 : dt = "medical_certificate" <;>
  by_cases h2 : dt = "disease_overview" <;>
  by_cases h3 : dt = "health_suggestions" <;>
  by_cases h4 : dt = "educational_notes" <;>
  first
  | (simp_all [List.find?]; done)
  | (have e1 : ("medical_certificate" == dt) = false :=
      beq_eq_false_iff_ne.mpr (fun h => h1 h.symm)
     have e2 : ("disease_overview" == dt) = false :=
      beq_eq_false_iff_ne.mpr (fun h => h2 h.symm)
     have e3 : ("health_suggestions" == dt) = false :=
      beq_eq_false_iff_ne.mpr (fun h => h3 h.symm)
     have e4 : ("educational_notes" == dt) = false :=
      beq_eq_false_iff_ne.mpr (fun h => h4 h.symm)
     simp [List.find?, e1, e2, e3, e4, h2])

/-- A document type requires the patient field exactly when it is
`medical_certificate` (the `DOCUMENT_TYPES` table of `ContentForm.jsx`). -/
lemma formRequiresPatient_iff (dt : String) :
    formRequiresPatient dt = true ↔ dt = "medical_certificate" := by
  unfold formRequiresPatient selectedTypeConfig DOCUMENT_TYPES
  by_cases h1 : dt = "medical_certificate" <;>
  by_cases h2 : dt = "disease_overview" <;>
  by_cases h3 : dt = "health_suggestions" <;>
  by_cases h4 : dt = "educational_notes" <;>
  first
  | (simp_all [List.find?]; done)
  | (have e1 : ("medical_certificate" == dt) = false :=
      beq_eq_false_iff_ne.mpr (fun h => h1 h.symm)
     have e2 : ("disease_overview" == dt) = false :=
      beq_eq_false_iff_ne.mpr (fun h => h2 h.symm)
     have e3 : ("health_suggestions" == dt) = false :=
      beq_eq_false_iff_ne.mpr (fun h => h3 h.symm)
     have e4 : ("educational_notes" == dt) = false :=
      beq_eq_false_iff_ne.mpr (fun h => h4 h.symm)
     simp [List.find?, e1, e2, e3, e4, h1])

/-- The identifiers issued by a run of `create` calls are consecutive
values of the fresh counter. -/
lemma createMany_ids (s : DocStore) (ds : List GeneratedDoc) :
    (DocStore.createMany s ds).2 = List.range' s.nextId ds.length := by
  induction ds generalizing s with
  | nil => rfl
  | cons d ds ih =>
    simp [DocStore.createMany, DocStore.create, ih, List.range'_succ]

/-- Every key present after a run of `create` calls was either issued by
one of those calls or was already present. -/
lemma createMany_docs_key (s : DocStore) (ds : List GeneratedDoc) :
    ∀ kd ∈ (DocStore.createMany s ds).1.docs,
      kd.1 ∈ (DocStore.createMany s ds).2 ∨ kd ∈ s.docs := by
  induction ds generalizing s with
  | nil => intro kd h; exact Or.inr h
  | cons d ds ih =>
    intro kd h
    simp only [DocStore.createMany, DocStore.create] at h ⊢
    rcases ih _ kd h with h' | h'
    · exact Or.inl (List.mem_cons_of_mem _ h')
    · rcases List.mem_cons.mp h' with h'' | h''
      · subst h''
        exact Or.inl (List.mem_cons_self _ _)
      · exact Or.inr h''

/-! ## Claim theorems -/

/-- C1: for every generation request that passes the scope check and whose
scoped retrieval set is empty, the pipeline returns
`InsufficientDataError` and the Generation Client is invoked with no
content-producing prompt at all. -/
theorem empty_retrieval_insufficient (K : Nat) (knownDiseases : List String)
    (patientExists : String → Bool) (index : List Chunk)
    (req : GenerationRequest) (backend : String → String)
    (hscope : scopeOk knownDiseases patientExists req = true)
    (hempty : scopedRetrieve K index req = []) :
    runGeneration K knownDiseases patientExists index req backend =
      (Except.error GenError.InsufficientDataError, []) := by
  unfold runGeneration
  simp [hscope, hempty]

/-- Witness for C1: a concrete in-scope request over an empty index. -/
theorem empty_retrieval_insufficient_witness :
    scopeOk ["hypertension"] (fun _ => false)
      ⟨DocumentType.disease_overview, "blood pressure", some "hypertension",
        none, "demo_hospital"⟩ = true ∧
    scopedRetrieve 5 []
      ⟨DocumentType.disease_overview, "blood pressure", some "hypertension",
        none, "demo_hospital"⟩ = [] ∧
    runGeneration 5 ["hypertension"] (fun _ => false) []
      ⟨DocumentType.disease_overview, "blood pressure", some "hypertension",
        none, "demo_hospital"⟩ (fun p => p) =
      (Except.error GenError.InsufficientDataError, []) :=
  ⟨rfl, rfl, empty_retrieval_insufficient 5 _ _ _ _ _ rfl rfl⟩

/-- C2: for a `disease_overview` request for disease `d`, every chunk used
in the constructed prompt has category `disease` and disease identifier
`d`: the category/disease filter runs on the candidate set before ranking,
so no other chunk can occupy a top-K slot. -/
theorem disease_scope_isolation (K : Nat) (index : List Chunk)
    (req : GenerationRequest) (d : String)
    (hdt : req.document_type = DocumentType.disease_overview)
    (hd : req.disease_id = some d) :
    ∀ c ∈ promptChunks K index req,
      c.category = Category.disease ∧ c.diseaseId = some d := by
  intro c hc
  unfold promptChunks scopedRetrieve scopedRetrieveIndexed at hc
  simp only [List.mem_map] at hc
  obtain ⟨p, ⟨ic, hic, rfl⟩, rfl⟩ := hc
  have hp' := List.mem_of_mem_take hic
  rw [List.mem_insertionSort] at hp'
  have hallow := (List.mem_filter.mp hp').2
  unfold chunkAllowed at hallow
  rw [hdt, hd] at hallow
  simp [allowedCategories] at hallow
  exact ⟨hallow.1, hallow.2⟩

/-- Witness for C2: a concrete hypertension request over a mixed index. -/
theorem disease_scope_isolation_witness :
    (⟨DocumentType.disease_overview, "bp", some "hypertension", none, "h"⟩ :
        GenerationRequest).document_type = DocumentType.disease_overview ∧
    ∀ c ∈ promptChunks 5
        [⟨"h", Category.disease, some "hypertension", "bp text", [1, 2]⟩,
         ⟨"h", Category.wellness, none, "wellness text", [3, 4]⟩]
        ⟨DocumentType.disease_overview, "bp", some "hypertension", none, "h"⟩,
      c.category = Category.disease ∧ c.diseaseId = some "hypertension" :=
  ⟨rfl, disease_scope_isolation 5 _ _ "hypertension" rfl rfl⟩

/-- C3: the Safety Filter is a pure function of (document type, text): two
evaluations on identical inputs yield the identical decision, and on
acceptance the text is passed through unchanged. -/
theorem safetyFilter_pure :
    (∀ dt t r₁ r₂, safetyFilter dt t = r₁ → safetyFilter dt t = r₂ → r₁ = r₂) ∧
    (∀ dt t s, safetyFilter dt t = Except.ok s → s = t) := by
  constructor
  · intro dt t r₁ r₂ h₁ h₂
    rw [← h₁, ← h₂]
  · intro dt t s h
    unfold safetyFilter at h
    split_ifs at h
    simp_all

/-- Witness for C3: a concrete clean text accepted unchanged. -/
theorem safetyFilter_pure_witness :
    safetyFilter DocumentType.health_suggestions "Drink water and sleep well." =
      Except.ok "Drink water and sleep well." ∧
    ("Drink water and sleep well." : String) = "Drink water and sleep well." :=
  ⟨rfl, safetyFilter_pure.2 DocumentType.health_suggestions
    "Drink water and sleep well." "Drink water and sleep well." rfl⟩

/-- C4: a `medical_certificate` output lacking the DRAFT marker or the
clinician-review disclaimer is rejected with `ComplianceViolationError`
(whether or not any other rule is violated), and accepted
`medical_certificate` output is unchanged and satisfies all certificate
obligations: DRAFT marker, disclaimer, and unfilled patient/doctor
placeholders. -/
theorem certificate_draft_enforced :
    (∀ t, containsCI "draft" t = false ∨
        containsCI "requires clinician review" t = false →
      safetyFilter DocumentType.medical_certificate t =
        Except.error GenError.ComplianceViolationError) ∧
    (∀ t s, safetyFilter DocumentType.medical_certificate t = Except.ok s →
      s = t ∧ certificateOk s = true) := by
  constructor
  · intro t ht
    unfold safetyFilter
    split_ifs with h1 h2
    · rfl
    · rfl
    · exfalso
      apply h2
      refine ⟨rfl, ?_⟩
      unfold certificateOk
      rcases ht with h | h <;> simp [h]
  · intro t s h
    unfold safetyFilter at h
    split_ifs at h with h1 h2
    have hs := Except.ok.inj h
    subst hs
    refine ⟨rfl, ?_⟩
    cases hc : certificateOk t with
    | false => exact absurd ⟨rfl, hc⟩ h2
    | true => rfl

/-- Witness for C4: a concrete certificate text without a DRAFT marker is
rejected. -/
theorem certificate_draft_enforced_witness :
    containsCI "draft" "Medical certificate: rest advised for recovery." = false ∧
    safetyFilter DocumentType.medical_certificate
        "Medical certificate: rest advised for recovery." =
      Except.error GenError.ComplianceViolationError :=
  ⟨rfl, certificate_draft_enforced.1
    "Medical certificate: rest advised for recovery." (Or.inl rfl)⟩

/-- C5: round-trip: retrieving by the identifier returned from a
successful `create` yields a document whose content equals the stored
document's content. -/
theorem create_get_roundtrip (s : DocStore) (d : GeneratedDoc) :
    ∃ r, DocStore.get (DocStore.create s d).1 (DocStore.create s d).2 =
        Except.ok r ∧ r.content = d.content := by
  refine ⟨d, ?_, rfl⟩
  simp [DocStore.get, DocStore.create]

/-- Witness for C5: the round trip on a concrete document. -/
theorem create_get_roundtrip_witness :
    ∃ r, DocStore.get (DocStore.create DocStore.empty
        ⟨DocumentType.health_suggestions, "sleep", "content text", 0, "h"⟩).1
      (DocStore.create DocStore.empty
        ⟨DocumentType.health_suggestions, "sleep", "content text", 0, "h"⟩).2 =
        Except.ok r ∧ r.content = "content text" :=
  create_get_roundtrip DocStore.empty
    ⟨DocumentType.health_suggestions, "sleep", "content text", 0, "h"⟩

/-- C6: `get` is an exact-match lookup on the identifier only: an
identifier never issued by any `create` fails with `NotFoundError`, and a
successful `get` returns exactly the document stored under that
identifier. -/
theorem get_exact_match :
    (∀ ds id, id ∉ (DocStore.createMany DocStore.empty ds).2 →
      DocStore.get (DocStore.createMany DocStore.empty ds).1 id =
        Except.error GenError.NotFoundError) ∧
    (∀ s id d, DocStore.get s id = Except.ok d → (id, d) ∈ s.docs) := by
  constructor
  · intro ds id hid
    unfold DocStore.get
    have hnone : (DocStore.createMany DocStore.empty ds).1.docs.find?
        (fun kd => kd.1 == id) = none := by
      rw [List.find?_eq_none]
      intro kd hkd hb
      rcases createMany_docs_key DocStore.empty ds kd hkd with h | h
      · have hk : kd.1 = id := by simpa using hb
        exact hid (hk ▸ h)
      · simp [DocStore.empty] at h
    rw [hnone]
  · intro s id d hget
    unfold DocStore.get at hget
    rcases hfind : s.docs.find? (fun kd => kd.1 == id) with _ | kd
    · rw [hfind] at hget
      simp at hget
    · rw [hfind] at hget
      have hd : kd.2 = d := by injection hget
      have hk : kd.1 = id := by simpa using List.find?_some hfind
      have hmem := List.mem_of_find?_eq_some hfind
      have hkd : (id, d) = kd := by
        cases kd
        simp_all
      rw [hkd]
      exact hmem

/-- Witness for C6: after one `create`, an identifier never issued is not
found. -/
theorem get_exact_match_witness :
    (5 ∉ (DocStore.createMany DocStore.empty
      [⟨DocumentType.disease_overview, "bp", "content", 0, "h"⟩]).2) ∧
    DocStore.get (DocStore.createMany DocStore.empty
        [⟨DocumentType.disease_overview, "bp", "content", 0, "h"⟩]).1 5 =
      Except.error GenError.NotFoundError :=
  ⟨by decide, get_exact_match.1
    [⟨DocumentType.disease_overview, "bp", "content", 0, "h"⟩] 5 (by decide)⟩

/-- C7: N `create` calls issue N pairwise-distinct identifiers, one fresh
identifier per call. -/
theorem create_ids_unique (s : DocStore) (ds : List GeneratedDoc) :
    ((DocStore.createMany s ds).2).Nodup ∧
      (DocStore.createMany s ds).2.length = ds.length := by
  rw [createMany_ids]
  exact ⟨List.nodup_range' _ _, List.length_range' _ _ _⟩

/-- Witness for C7: two creates on the empty store issue two distinct
identifiers. -/
theorem create_ids_unique_witness :
    ((DocStore.createMany DocStore.empty
        [⟨DocumentType.health_suggestions, "sleep", "a", 0, "h"⟩,
         ⟨DocumentType.educational_notes, "care", "b", 1, "h"⟩]).2).Nodup ∧
      (DocStore.createMany DocStore.empty
        [⟨DocumentType.health_suggestions, "sleep", "a", 0, "h"⟩,
         ⟨DocumentType.educational_notes, "care", "b", 1, "h"⟩]).2.length =
        ([⟨DocumentType.health_suggestions, "sleep", "a", 0, "h"⟩,
          ⟨DocumentType.educational_notes, "care", "b", 1, "h"⟩] :
            List GeneratedDoc).length :=
  create_ids_unique DocStore.empty
    [⟨DocumentType.health_suggestions, "sleep", "a", 0, "h"⟩,
     ⟨DocumentType.educational_notes, "care", "b", 1, "h"⟩]

/-- C8: the Retrieval Result holds at most K chunks, is sorted by
descending inner-product score with ties broken by original insertion
order, and contains only chunks from the allowed filtered subset, each
paired with its own score. -/
theorem retrieval_topk_ranked (K : Nat) (index : List Chunk)
    (req : GenerationRequest) :
    (scopedRetrieve K index req).length ≤ K ∧
    List.Sorted (rankRel (embed req.topic)) (scopedRetrieveIndexed K index req) ∧
    ∀ p ∈ scopedRetrieve K index req,
      chunkAllowed req p.1 = true ∧
        p.2 = innerProduct (embed req.topic) p.1.embedding := by
  refine ⟨?_, ?_, ?_⟩
  · unfold scopedRetrieve scopedRetrieveIndexed
    simp [List.length_take]
  · unfold scopedRetrieveIndexed
    exact List.Pairwise.sublist (List.take_sublist _ _)
      (List.sorted_insertionSort _ _)
  · intro p hp
    unfold scopedRetrieve scopedRetrieveIndexed at hp
    simp only [List.mem_map] at hp
    obtain ⟨ic, hic, rfl⟩ := hp
    have h1 := List.mem_of_mem_take hic
    rw [List.mem_insertionSort] at h1
    exact ⟨(List.mem_filter.mp h1).2, rfl⟩

/-- Witness for C8: the property at the default top-K on a concrete
two-chunk index. -/
theorem retrieval_topk_ranked_witness :
    (scopedRetrieve TOP_K
        [⟨"h", Category.wellness, none, "hydrate", [2, 1]⟩,
         ⟨"h", Category.guideline, none, "wording", [1, 1]⟩]
        ⟨DocumentType.health_suggestions, "tips", none, none, "h"⟩).length ≤ TOP_K ∧
    List.Sorted (rankRel (embed "tips"))
      (scopedRetrieveIndexed TOP_K
        [⟨"h", Category.wellness, none, "hydrate", [2, 1]⟩,
         ⟨"h", Category.guideline, none, "wording", [1, 1]⟩]
        ⟨DocumentType.health_suggestions, "tips", none, none, "h"⟩) ∧
    ∀ p ∈ scopedRetrieve TOP_K
        [⟨"h", Category.wellness, none, "hydrate", [2, 1]⟩,
         ⟨"h", Category.guideline, none, "wording", [1, 1]⟩]
        ⟨DocumentType.health_suggestions, "tips", none, none, "h"⟩,
      chunkAllowed ⟨DocumentType.health_suggestions, "tips", none, none, "h"⟩ p.1 = true ∧
        p.2 = innerProduct (embed "tips") p.1.embedding :=
  retrieval_topk_ranked TOP_K _ _

/-- C9: a successful form submission's payload carries `disease_name`
exactly when the document type is `disease_overview` and `patient_id`
exactly when it is `medical_certificate`; submissions missing a required
field are rejected before any request is sent. -/
theorem form_payload_fields :
    (∀ st p, handleSubmit st = SubmitOutcome.send p →
      (p.disease_name ≠ none ↔ st.documentType = "disease_overview") ∧
      (p.patient_id ≠ none ↔ st.documentType = "medical_certificate")) ∧
    (∀ st, st.documentType = "disease_overview" → st.diseaseName = "" →
      ∀ p, handleSubmit st ≠ SubmitOutcome.send p) ∧
    (∀ st, st.documentType = "medical_certificate" → st.patientId = "" →
      ∀ p, handleSubmit st ≠ SubmitOutcome.send p) := by
  refine ⟨?_, ?_, ?_⟩
  · intro st p hp
    unfold handleSubmit at hp
    by_cases h0 : st.documentType = ""
    · rw [if_pos h0] at hp
      simp at hp
    rw [if_neg h0] at hp
    by_cases hdz : formRequiresDisease st.documentType = true ∧ st.diseaseName = ""
    · rw [if_pos hdz] at hp
      simp at hp
    rw [if_neg hdz] at hp
    by_cases htz : jsTrim st.topic = ""
    · rw [if_pos htz] at hp
      simp at hp
    rw [if_neg htz] at hp
    by_cases hpz : formRequiresPatient st.documentType = true ∧ st.patientId = ""
    · rw [if_pos hpz] at hp
      simp at hp
    rw [if_neg hpz] at hp
    injection hp with hp
    subst hp
    constructor
    · by_cases hd : formRequiresDisease st.documentType = true
      · have hne : st.diseaseName ≠ "" := fun h => hdz ⟨hd, h⟩
        simp [generateDocumentPayload, hd, hne,
          (formRequiresDisease_iff st.documentType).mp hd,
          show formRequiresDisease "disease_overview" = true from rfl]
      · have hne : st.documentType ≠ "disease_overview" :=
          fun h => hd ((formRequiresDisease_iff st.documentType).mpr h)
        simp [generateDocumentPayload, hd, hne]
    · by_cases hq : formRequiresPatient st.documentType = true
      · have hne : st.patientId ≠ "" := fun h => hpz ⟨hq, h⟩
        simp [generateDocumentPayload, hq, hne,
          (formRequiresPatient_iff st.documentType).mp hq,
          show formRequiresPatient "medical_certificate" = true from rfl]
      · have hne : st.documentType ≠ "medical_certificate" :=
          fun h => hq ((formRequiresPatient_iff st.documentType).mpr h)
        simp [generateDocumentPayload, hq, hne]
  · intro st hdt hdz p
    unfold handleSubmit
    have hd : formRequiresDisease st.documentType = true :=
      (formRequiresDisease_iff st.documentType).mpr hdt
    have h0 : st.documentType ≠ "" := by
      rw [hdt]
      decide
    simp [h0, hd, hdz]
  · intro st hdt hpz p
    unfold handleSubmit
    have h0 : st.documentType ≠ "" := by
      rw [hdt]
      decide
    have hfd : formRequiresDisease st.documentType = false := by
      rw [hdt]
      rfl
    have hfp : formRequiresPatient st.documentType = true := by
      rw [hdt]
      rfl
    by_cases htz : jsTrim st.topic = "" <;>
      simp [h0, hfd, hfp, hpz, htz]

/-- Witness for C9: a concrete `disease_overview` submission sends a
payload with `disease_name` and without `patient_id`. -/
theorem form_payload_fields_witness :
    handleSubmit ⟨"disease_overview", "hypertension", "blood pressure", ""⟩ =
      SubmitOutcome.send ⟨"disease_overview", "blood pressure",
        "demo_hospital", some "hypertension", none⟩ ∧
    ((some "hypertension" ≠ (none : Option String)) ↔
      ("disease_overview" : String) = "disease_overview") ∧
    (((none : Option String) ≠ none) ↔
      ("disease_overview" : String) = "medical_certificate") :=
  ⟨rfl,
    (form_payload_fields.1
      ⟨"disease_overview", "hypertension", "blood pressure", ""⟩
      ⟨"disease_overview", "blood pressure", "demo_hospital",
        some "hypertension", none⟩ rfl).1,
    (form_payload_fields.1
      ⟨"disease_overview", "hypertension", "blood pressure", ""⟩
      ⟨"disease_overview", "blood pressure", "demo_hospital",
        some "hypertension", none⟩ rfl).2⟩

/-- C10 counterexample: the claim "every submission whose trimmed input
does not match the UUID pattern sets a format-error message" fails at the
blank input, which does not match the pattern yet sets the missing-ID
message instead of the format-error message. -/
theorem lookup_nonuuid_counterexample :
    uuidShaped (jsTrim "") = false ∧
    lookupHandleSubmit "" = LookupOutcome.error "Please enter a Document ID" ∧
    ("Please enter a Document ID" : String) ≠
      "Invalid Document ID format. Please check and try again." := by
  refine ⟨rfl, rfl, ?_⟩
  decide

/-- C10 (amended): every submission whose trimmed input does not match the
8-4-4-4-12 hexadecimal UUID pattern sets an error message — the
format-error message when the trimmed input is non-blank, the missing-ID
message when it is blank — and never calls `getDocument`. -/
theorem lookup_rejects_nonuuid (s : String)
    (h : uuidShaped (jsTrim s) = false) :
    lookupHandleSubmit s =
      LookupOutcome.error (if jsTrim s = "" then "Please enter a Document ID"
        else "Invalid Document ID format. Please check and try again.") ∧
    ∀ id, lookupHandleSubmit s ≠ LookupOutcome.call id := by
  unfold lookupHandleSubmit
  by_cases he : jsTrim s = "" <;> simp [he, h]

/-- Witness for C10: a concrete `DOC-...`-shaped identifier is rejected
with the format-error message and no `getDocument` call. -/
theorem lookup_rejects_nonuuid_witness :
    uuidShaped (jsTrim "DOC-abc123") = false ∧
    lookupHandleSubmit "DOC-abc123" =
      LookupOutcome.error "Invalid Document ID format. Please check and try again." :=
  ⟨rfl, (lookup_rejects_nonuuid "DOC-abc123" rfl).1⟩

end RagChatBot
